import Mathlib

set_option maxHeartbeats 1000000

/-!
A shallow embedding of the Polymarket MCP gateway (`src/api/mcp.js`) and
proofs about its request handling, tool execution and formatting code.

JavaScript values are modelled by `JValue` (JSON values plus `undefined`),
numbers by rationals, and thrown JavaScript exceptions by `Except JsErr`.
Asynchronous upstream fetches are modelled by an oracle `Upstream` mapping
an endpoint and query to a network outcome.
-/

/-- JavaScript values as far as the handler manipulates them: the JSON
values plus `undefined`.  Numbers are modelled as rationals. -/
inductive JValue where
  | jundefined
  | jnull
  | jbool (b : Bool)
  | jnum (q : ℚ)
  | jstr (s : String)
  | jarr (elems : List JValue)
  | jobj (fields : List (String × JValue))
deriving Repr

/-- A thrown JavaScript error: its constructor name and its `message`. -/
structure JsErr where
  name : String
  message : String
deriving Repr, DecidableEq

/-- `Error.prototype.toString()`: `"<name>: <message>"`. -/
def JsErr.asString (e : JsErr) : String := e.name ++ ": " ++ e.message

/-- JavaScript truthiness of a value. -/
def truthy : JValue → Bool
  | .jundefined => false
  | .jnull => false
  | .jbool b => b
  | .jnum q => if q = 0 then false else true
  | .jstr s => if s = "" then false else true
  | .jarr _ => true
  | .jobj _ => true

/-- Is the value exactly `undefined`? (`!== undefined` checks). -/
def JValue.isUndefined : JValue → Bool
  | .jundefined => true
  | _ => false

/-- Is the value exactly `null`? -/
def JValue.isNull : JValue → Bool
  | .jnull => true
  | _ => false

/-- Is the value the number `0` (strict `=== 0`)? -/
def isNumZero : JValue → Bool
  | .jnum q => if q = 0 then true else false
  | _ => false

/-- Property lookup in an object's field list (the object's single value
for a key; field lists built in this development have distinct keys). -/
def jsGet (fields : List (String × JValue)) (k : String) : JValue :=
  match fields.find? (fun p => p.1 == k) with
  | some p => p.2
  | none => .jundefined

/-- JavaScript property read `v[k]`: throws a `TypeError` on `undefined`
and `null`, yields `undefined` for absent properties, and exposes
`length` on arrays and strings. -/
def getField : JValue → String → Except JsErr JValue
  | .jundefined, k =>
      .error ⟨"TypeError", "Cannot read properties of undefined (reading '" ++ k ++ "')"⟩
  | .jnull, k =>
      .error ⟨"TypeError", "Cannot read properties of null (reading '" ++ k ++ "')"⟩
  | .jbool _, _ => .ok .jundefined
  | .jnum _, _ => .ok .jundefined
  | .jstr s, k => .ok (if k == "length" then .jnum (s.length : ℚ) else .jundefined)
  | .jarr l, k => .ok (if k == "length" then .jnum (l.length : ℚ) else .jundefined)
  | .jobj fs, k => .ok (jsGet fs k)

/-- Left-pad a digit string with zeros to width `d`. -/
def padZeros (d : Nat) (s : String) : String :=
  String.mk (List.replicate (d - s.length) '0') ++ s

/-- `Number.prototype.toFixed(d)`: round to `d` decimal places, ties
toward the larger candidate, and print with exactly `d` fraction digits. -/
def qToFixed (d : Nat) (q : ℚ) : String :=
  let n : Int := Int.fdiv (q.num * (10 : ℤ) ^ d * 2 + (q.den : ℤ)) (2 * (q.den : ℤ))
  let m : Nat := n.natAbs
  let sign := if n < 0 then "-" else ""
  if d = 0 then sign ++ Nat.repr m
  else sign ++ Nat.repr (m / 10 ^ d) ++ "." ++ padZeros d (Nat.repr (m % 10 ^ d))

/-- JavaScript number-to-string conversion, on rationals that have a
finite decimal expansion (every value produced by the handler does):
the shortest decimal form, with no trailing fraction zeros. -/
def jsNumToString (q : ℚ) : String :=
  if q = 0 then "0"
  else
    let sign := if q < 0 then "-" else ""
    let a : ℚ := |q|
    match (List.range 400).find? (fun d => (a * (10 : ℚ) ^ d).den == 1) with
    | none => sign ++ Nat.repr a.num.natAbs ++ "/" ++ Nat.repr a.den
    | some 0 => sign ++ Nat.repr a.num.natAbs
    | some (d + 1) =>
      let m := (a * (10 : ℚ) ^ (d + 1)).num.natAbs
      sign ++ Nat.repr (m / 10 ^ (d + 1)) ++ "." ++ padZeros (d + 1) (Nat.repr (m % 10 ^ (d + 1)))

/-- Insert a comma after every third character (applied to a reversed
digit list), for thousands grouping. -/
def chunk3 : List Char → List Char
  | a :: b :: c :: d :: rest => a :: b :: c :: ',' :: chunk3 (d :: rest)
  | l => l

/-- Group the digits of a decimal integer string in threes with commas. -/
def group3 (s : String) : String :=
  String.mk (chunk3 s.toList.reverse).reverse

/-- Drop trailing `'0'` characters. -/
def dropTrailingZeroChars (s : String) : String :=
  String.mk (s.toList.reverse.dropWhile (fun c => c == '0')).reverse

/-- `Number.prototype.toLocaleString()` in the default `en-US` locale:
thousands-grouped integer part, at most three fraction digits. -/
def jsToLocaleString (q : ℚ) : String :=
  let sign := if q < 0 then "-" else ""
  let a : ℚ := |q|
  let n : Int := Int.fdiv (a.num * 1000 * 2 + (a.den : ℤ)) (2 * (a.den : ℤ))
  let m : Nat := n.natAbs
  let ip := m / 1000
  let fp := m % 1000
  sign ++ group3 (Nat.repr ip) ++
    (if fp = 0 then "" else "." ++ dropTrailingZeroChars (padZeros 3 (Nat.repr fp)))

mutual

/-- JavaScript string conversion `String(v)` / template-literal
interpolation. -/
def toJsString : JValue → String
  | .jundefined => "undefined"
  | .jnull => "null"
  | .jbool true => "true"
  | .jbool false => "false"
  | .jnum q => jsNumToString q
  | .jstr s => s
  | .jarr l => String.intercalate "," (toJsStringList l)
  | .jobj _ => "[object Object]"

/-- `Array.prototype.toString` renders `null`/`undefined` elements as
empty strings and joins with commas. -/
def toJsStringList : List JValue → List String
  | [] => []
  | .jnull :: r => "" :: toJsStringList r
  | .jundefined :: r => "" :: toJsStringList r
  | v :: r => toJsString v :: toJsStringList r

end

/-- `v.toLocaleString()`: numeric grouping for numbers, identity on
strings; other values behave as their `toString`. -/
def jsToLocaleStringV : JValue → String
  | .jnum q => jsToLocaleString q
  | .jstr s => s
  | v => toJsString v

/-- Does the character list start with `needle` at some position? -/
def charsContain (needle : List Char) : List Char → Bool
  | [] => needle.isEmpty
  | c :: rest => needle.isPrefixOf (c :: rest) || charsContain needle rest

/-- Does `hay` contain `needle` as a substring? -/
def containsStr (hay needle : String) : Bool :=
  charsContain needle.data hay.data

/-- `String.prototype.endsWith`, by character-list suffix comparison. -/
def endsWithS (s suffix : String) : Bool :=
  suffix.data.isSuffixOf s.data

/-- JSON string escaping of one character. -/
def escapeJsonChar (c : Char) : String :=
  if c = '"' then "\\\""
  else if c = '\\' then "\\\\"
  else if c = '\n' then "\\n"
  else if c = '\r' then "\\r"
  else if c = '\t' then "\\t"
  else String.singleton c

/-- A JSON string literal for `s`. -/
def quoteJson (s : String) : String :=
  "\"" ++ String.join (s.toList.map escapeJsonChar) ++ "\""

mutual

/-- `JSON.stringify`: object fields holding `undefined` are dropped,
array holes holding `undefined` become `null`. -/
def jsonStringify : JValue → String
  | .jundefined => "undefined"
  | .jnull => "null"
  | .jbool true => "true"
  | .jbool false => "false"
  | .jnum q => jsNumToString q
  | .jstr s => quoteJson s
  | .jarr l => "[" ++ String.intercalate "," (jsonStringifyArr l) ++ "]"
  | .jobj fs => "\x7b" ++ String.intercalate "," (jsonStringifyFields fs) ++ "\x7d"

/-- Array elements under `JSON.stringify` (`undefined` becomes `null`). -/
def jsonStringifyArr : List JValue → List String
  | [] => []
  | .jundefined :: r => "null" :: jsonStringifyArr r
  | v :: r => jsonStringify v :: jsonStringifyArr r

/-- Object fields under `JSON.stringify` (`undefined` values dropped). -/
def jsonStringifyFields : List (String × JValue) → List String
  | [] => []
  | (_, .jundefined) :: r => jsonStringifyFields r
  | (k, v) :: r => (quoteJson k ++ ":" ++ jsonStringify v) :: jsonStringifyFields r

end

/-- The outcome of one upstream `fetch`: a thrown network error, or a
response with its `ok` flag, status, body text and parsed JSON body
(`none` when the body is not valid JSON, so `response.json()` throws). -/
inductive FetchOutcome where
  | fail (e : JsErr)
  | resp (ok : Bool) (status : Nat) (bodyText : String) (bodyJson : Option JValue)

/-- The network oracle: maps an endpoint path and the appended query
parameters (already stringified) to a fetch outcome. -/
def Upstream : Type := String → List (String × String) → FetchOutcome

/-- `callPolymarketAPI(endpoint, params)`: appends each non-undefined,
non-null parameter to the query (stringified), fetches, throws
`Polymarket API error: <status> - <body>` on a non-2xx response, and
otherwise returns the parsed JSON body.  Its own catch merely logs and
rethrows. -/
def callPolymarketAPI (up : Upstream) (endpoint : String)
    (params : Option (List (String × JValue))) : Except JsErr JValue :=
  let query : List (String × String) :=
    match params with
    | none => []
    | some ps => ps.filterMap (fun kv =>
        if kv.2.isUndefined || kv.2.isNull then none else some (kv.1, toJsString kv.2))
  match up endpoint query with
  | .fail e => .error e
  | .resp ok status text json =>
    if ok then
      match json with
      | some j => .ok j
      | none => .error ⟨"SyntaxError", "Unexpected end of JSON input"⟩
    else
      .error ⟨"Error", "Polymarket API error: " ++ Nat.repr status ++ " - " ++ text⟩

/-- Render `v || default` in a template literal: the string conversion of
`v` when truthy, the default text otherwise. -/
def orDefault (v : JValue) (d : String) : String :=
  if truthy v then toJsString v else d

/-- Render `a || b || default` in a template literal. -/
def firstTruthy2 (a b : JValue) (d : String) : String :=
  if truthy a then toJsString a else orDefault b d

/-- The `Outcome Prices` segments of `get-market-info`:
`data.outcomes.map(o => `...`)`, reading `data.outcomeprices[o]` per
element (a `TypeError` when `outcomeprices` is `undefined`/`null`) and
rendering falsy prices as `"N/A"`. -/
def outcomeSegs (data : JValue) : List JValue → Except JsErr (List String)
  | [] => .ok []
  | o :: rest => do
    let opv ← getField data "outcomeprices"
    let p ← getField opv (toJsString o)
    let rs ← outcomeSegs data rest
    .ok ((toJsString o ++ ": $" ++ (if truthy p then toJsString p else "N/A")) :: rs)

/-- The `get-market-info` tool body (inside `executeTool`'s `try`). -/
def getMarketInfoTool (args : JValue) (up : Upstream) : Except JsErr String := do
  let mid ← getField args "market_id"
  let data ← callPolymarketAPI up ("/markets/" ++ toJsString mid) none
  if truthy data = false then
    .ok "Market not found. Please check the market ID or slug."
  else do
    let q ← getField data "question"
    let t ← getField data "title"
    let cat ← getField data "category"
    let cl ← getField data "closed"
    let ed ← getField data "end_date_iso"
    let vol ← getField data "volume"
    let liq ← getField data "liquidity"
    let oc ← getField data "outcomes"
    let opLine ←
      if truthy oc then
        match oc with
        | .jarr os => do
          let segs ← outcomeSegs data os
          .ok (String.intercalate ", " segs)
        | _ => .error ⟨"TypeError", "data.outcomes.map is not a function"⟩
      else
        .ok "N/A"
    let desc ← getField data "description"
    .ok ("Title: " ++ firstTruthy2 q t "N/A" ++
      "\nCategory: " ++ orDefault cat "N/A" ++
      "\nStatus: " ++ (if truthy cl then "Closed" else "Open") ++
      "\nEnd Date: " ++ orDefault ed "N/A" ++
      "\nVolume: $" ++ jsToLocaleStringV (if truthy vol then vol else .jnum 0) ++
      "\nLiquidity: $" ++ jsToLocaleStringV (if truthy liq then liq else .jnum 0) ++
      "\nOutcome Prices: " ++ opLine ++
      "\nDescription: " ++ orDefault desc "No description available")

/-- The query-parameter object built by `list-markets`: `closed` when
strictly not `undefined`, `limit` and `offset` only when truthy. -/
def listMarketsParams (args : JValue) : Except JsErr (List (String × JValue)) := do
  let c ← getField args "closed"
  let l ← getField args "limit"
  let o ← getField args "offset"
  .ok ((if c.isUndefined then [] else [("closed", c)]) ++
    (if truthy l then [("limit", l)] else []) ++
    (if truthy o then [("offset", o)] else []))

/-- One numbered entry of the `list-markets` report. -/
def renderMarketEntry (i : Nat) (m : JValue) : Except JsErr String := do
  let q ← getField m "question"
  let t ← getField m "title"
  let cid ← getField m "condition_id"
  let idv ← getField m "id"
  let cl ← getField m "closed"
  let vol ← getField m "volume"
  let ed ← getField m "end_date_iso"
  .ok (Nat.repr (i + 1) ++ ". " ++ firstTruthy2 q t "Untitled Market" ++
    "\n   ID: " ++ firstTruthy2 cid idv "N/A" ++
    "\n   Status: " ++ (if truthy cl then "Closed" else "Open") ++
    "\n   Volume: $" ++ jsToLocaleStringV (if truthy vol then vol else .jnum 0) ++
    "\n   End Date: " ++ orDefault ed "N/A" ++
    "\n---\n")

/-- The `data.forEach` accumulation of `list-markets`, with 0-based
indices starting at `i`. -/
def renderMarkets (i : Nat) : List JValue → Except JsErr String
  | [] => .ok ""
  | m :: rest => do
    let e ← renderMarketEntry i m
    let r ← renderMarkets (i + 1) rest
    .ok (e ++ r)

/-- The `list-markets` tool body (inside `executeTool`'s `try`). -/
def listMarketsTool (args : JValue) (up : Upstream) : Except JsErr String := do
  let ps ← listMarketsParams args
  let data ← callPolymarketAPI up "/markets" (some ps)
  if truthy data = false then
    .ok "No markets found with the specified criteria."
  else do
    let len ← getField data "length"
    if isNumZero len then
      .ok "No markets found with the specified criteria."
    else
      match data with
      | .jarr ms => do
        let body ← renderMarkets 0 ms
        .ok ("Found " ++ toJsString (.jnum (ms.length : ℚ)) ++ " markets:\n\n" ++ body)
      | _ => .error ⟨"TypeError", "data.forEach is not a function"⟩

/-- One price line of `get-market-prices`: price to four decimals as
dollars and times 100 to one decimal as a percentage. -/
def priceLine (label : String) (pq : ℚ) : String :=
  label ++ ": $" ++ qToFixed 4 pq ++ " (" ++ qToFixed 1 (pq * 100) ++ "%)\n"

/-- The `outcomes`/`outcomeprices` loop of `get-market-prices`: the price
defaults to `0` when falsy; a non-numeric truthy price makes
`price.toFixed` throw. -/
def priceLines (op : JValue) : List JValue → Except JsErr String
  | [] => .ok ""
  | o :: rest => do
    let p ← getField op (toJsString o)
    match (if truthy p then p else .jnum 0) with
    | .jnum pq => do
      let r ← priceLines op rest
      .ok (priceLine (toJsString o) pq ++ r)
    | _ => .error ⟨"TypeError", "price.toFixed is not a function"⟩

/-- The `tokens` loop of `get-market-prices`. -/
def tokenLines : List JValue → Except JsErr String
  | [] => .ok ""
  | t :: rest => do
    let p ← getField t "price"
    let o ← getField t "outcome"
    match (if truthy p then p else .jnum 0) with
    | .jnum pq => do
      let r ← tokenLines rest
      .ok (priceLine (toJsString o) pq ++ r)
    | _ => .error ⟨"TypeError", "price.toFixed is not a function"⟩

/-- The `else if (data.tokens && Array.isArray(data.tokens))` tail of
`get-market-prices`. -/
def marketPricesTokens (header : String) (data : JValue) : Except JsErr String := do
  let tk ← getField data "tokens"
  if truthy tk then
    match tk with
    | .jarr ts => do
      let body ← tokenLines ts
      .ok (header ++ "Current Prices:\n" ++ body)
    | _ => .ok (header ++ "No price data available for this market.")
  else
    .ok (header ++ "No price data available for this market.")

/-- The `get-market-prices` tool body (inside `executeTool`'s `try`). -/
def getMarketPricesTool (args : JValue) (up : Upstream) : Except JsErr String := do
  let mid ← getField args "market_id"
  let data ← callPolymarketAPI up ("/markets/" ++ toJsString mid) none
  if truthy data = false then
    .ok "Market not found. Please check the market ID or slug."
  else do
    let q ← getField data "question"
    let t ← getField data "title"
    let header := "Market: " ++ firstTruthy2 q t "Unknown Market" ++ "\n\n"
    let oc ← getField data "outcomes"
    if truthy oc then do
      let op ← getField data "outcomeprices"
      if truthy op then
        match oc with
        | .jarr os => do
          let body ← priceLines op os
          .ok (header ++ "Current Prices:\n" ++ body)
        | _ => .error ⟨"TypeError", "data.outcomes.forEach is not a function"⟩
      else
        marketPricesTokens header data
    else
      marketPricesTokens header data

/-- The `switch (name)` body of `executeTool`, before its `catch`. -/
def executeToolInner (name args : JValue) (up : Upstream) : Except JsErr String :=
  match name with
  | .jstr "get-market-info" => getMarketInfoTool args up
  | .jstr "list-markets" => listMarketsTool args up
  | .jstr "get-market-prices" => getMarketPricesTool args up
  | other => .error ⟨"Error", "Unknown tool: " ++ toJsString other⟩

/-- `executeTool(name, args)`: the switch body with every thrown error
caught and rendered as `"Error: <message>"`. -/
def executeTool (name args : JValue) (up : Upstream) : String :=
  match executeToolInner name args up with
  | .ok s => s
  | .error e => "Error: " ++ e.message

/-- The static tool catalog advertised by `tools/list`. -/
def toolsCatalog : JValue := .jarr [
  .jobj [("name", .jstr "get-market-info"),
    ("description", .jstr "Get detailed information about a specific prediction market"),
    ("inputSchema", .jobj [("type", .jstr "object"),
      ("properties", .jobj [("market_id", .jobj [("type", .jstr "string"),
        ("description", .jstr "Market ID or slug (e.g., 'will-bitcoin-reach-100k-by-2024')")])]),
      ("required", .jarr [.jstr "market_id"])])],
  .jobj [("name", .jstr "list-markets"),
    ("description", .jstr "List available prediction markets with filtering options"),
    ("inputSchema", .jobj [("type", .jstr "object"),
      ("properties", .jobj [
        ("closed", .jobj [("type", .jstr "boolean"),
          ("description", .jstr "Filter by market status (true for closed, false for open)"),
          ("default", .jbool false)]),
        ("limit", .jobj [("type", .jstr "integer"),
          ("description", .jstr "Number of markets to return"),
          ("default", .jnum 10), ("minimum", .jnum 1), ("maximum", .jnum 100)]),
        ("offset", .jobj [("type", .jstr "integer"),
          ("description", .jstr "Number of markets to skip (for pagination)"),
          ("default", .jnum 0), ("minimum", .jnum 0)])])])],
  .jobj [("name", .jstr "get-market-prices"),
    ("description", .jstr "Get current prices and trading information for a specific market"),
    ("inputSchema", .jobj [("type", .jstr "object"),
      ("properties", .jobj [("market_id", .jobj [("type", .jstr "string"),
        ("description", .jstr "Market ID or slug")])]),
      ("required", .jarr [.jstr "market_id"])])]]

/-- The fixed `initialize` result object. -/
def initializeResult : JValue := .jobj [
  ("protocolVersion", .jstr "0.1.0"),
  ("capabilities", .jobj [("tools", .jobj []), ("prompts", .jobj [])]),
  ("serverInfo", .jobj [("name", .jstr "polymarket-mcp"), ("version", .jstr "1.0.0")])]

/-- The RPC dispatch over a parsed body: builds the response object with
`jsonrpc` and the echoed `id`, then switches on `method`.  A throw
anywhere (reading a field of a non-object body, or `callRequest.name`
when `params` is absent) escapes to the handler's catch. -/
def handleMessage (msg : JValue) (up : Upstream) :
    Except JsErr (List (String × JValue)) := do
  let idv ← getField msg "id"
  let base := [("jsonrpc", JValue.jstr "2.0"), ("id", idv)]
  let method ← getField msg "method"
  match method with
  | .jstr "initialize" => .ok (base ++ [("result", initializeResult)])
  | .jstr "tools/list" => .ok (base ++ [("result", .jobj [("tools", toolsCatalog)])])
  | .jstr "tools/call" => do
    let callRequest ← getField msg "params"
    let nm ← getField callRequest "name"
    let argv ← getField callRequest "arguments"
    let args := if truthy argv then argv else .jobj []
    let text := executeTool nm args up
    .ok (base ++ [("result", .jobj [("content",
      .jarr [.jobj [("type", .jstr "text"), ("text", .jstr text)]])])])
  | .jstr "prompts/list" => .ok (base ++ [("result", .jobj [("prompts", .jarr [])])])
  | m => .ok (base ++ [("error", .jobj [("code", .jnum (-32601)),
      ("message", .jstr ("Method not found: " ++ toJsString m))])])

/-- The HTTP-500 envelope-error body: `jsonrpc`, `error` with code
`-32603`, message `"Internal error"` and the stringified cause — and no
`id` field. -/
def envelopeError (e : JsErr) : List (String × JValue) :=
  [("jsonrpc", .jstr "2.0"),
   ("error", .jobj [("code", .jnum (-32603)), ("message", .jstr "Internal error"),
     ("data", .jstr e.asString)])]

/-- The error thrown by `req.json()` on a malformed body. -/
def parseFailure : JsErr := ⟨"SyntaxError", "Unexpected token"⟩

/-- The `/messages` POST branch: parse the body (`none` models a JSON
parse throw), dispatch, and catch any throw into the HTTP-500 envelope.
Returns the HTTP status and the response object that is stringified. -/
def messagesEndpoint (body? : Option JValue) (up : Upstream) :
    Nat × List (String × JValue) :=
  match body? with
  | none => (500, envelopeError parseFailure)
  | some msg =>
    match handleMessage msg up with
    | .ok r => (200, r)
    | .error e => (500, envelopeError e)

/-- The JSON-RPC notification sent on SSE open. -/
def connEstablished : JValue :=
  .jobj [("jsonrpc", .jstr "2.0"), ("method", .jstr "connection.established")]

/-- `sendSSEMessage`: one SSE `data:` frame holding the stringified
payload. -/
def sseFrame (d : JValue) : String := "data: " ++ jsonStringify d ++ "\n\n"

/-- The observable state of one SSE connection: the frames enqueued so
far, whether the keep-alive interval is still armed, and whether the
stream controller has been closed. -/
structure SseState where
  frames : List String
  timerOn : Bool
  closed : Bool
deriving Repr, DecidableEq

/-- `start(controller)`: the `connection.established` frame is enqueued
immediately and the keep-alive interval is armed. -/
def sseOpenState : SseState :=
  { frames := [sseFrame connEstablished], timerOn := true, closed := false }

/-- The events that can reach an open SSE connection: a 30-second
keep-alive timer tick, or the request's abort signal. -/
inductive SseEvent where
  | tick
  | abort
deriving Repr, DecidableEq

/-- One event step: a tick enqueues `: keepalive` while the timer is
armed (clearing the timer instead when the enqueue throws on a closed
controller); the abort listener clears the interval and closes the
controller. -/
def sseStep (s : SseState) : SseEvent → SseState
  | .tick =>
    if s.timerOn then
      if s.closed then { s with timerOn := false }
      else { s with frames := s.frames ++ [": keepalive\n\n"] }
    else s
  | .abort => { s with timerOn := false, closed := true }

/-- The possible results of the top-level `handler`. -/
inductive HandlerResult where
  | preflight
  | sse (s : SseState)
  | messages (r : Nat × List (String × JValue))
  | banner (text : String)

/-- The top-level request handler: CORS preflight first, then the `/sse`
path-suffix branch, then POST `/messages`, then the plain-text banner. -/
def handler (method path : String) (body? : Option JValue) (up : Upstream) :
    HandlerResult :=
  if method = "OPTIONS" then .preflight
  else if endsWithS path "/sse" then .sse sseOpenState
  else if endsWithS path "/messages" && method == "POST" then
    .messages (messagesEndpoint body? up)
  else .banner "Polymarket MCP Server - Working! Use /sse endpoint for SSE connection."

/-- First-binding lookup in a response object, `none` when the key is
absent (after `JSON.stringify` an absent key never reaches the wire). -/
def lookupField (fields : List (String × JValue)) (k : String) : Option JValue :=
  (fields.find? (fun p => p.1 == k)).map (fun p => p.2)

/-- Bind of a successful `Except` computation. -/
theorem exceptOkBind {α β : Type} (a : α) (f : α → Except JsErr β) :
    (Except.ok a >>= f) = f a := rfl

/-- Bind of a thrown `Except` computation. -/
theorem exceptErrBind {α β : Type} (e : JsErr) (f : α → Except JsErr β) :
    ((Except.error e : Except JsErr α) >>= f) = Except.error e := rfl

/-- Property reads on an object never throw. -/
theorem getFieldObjEq (fs : List (String × JValue)) (k : String) :
    getField (.jobj fs) k = .ok (jsGet fs k) := rfl

/-- An upstream oracle that answers every fetch with HTTP 200 and the
given JSON body. -/
def constUpstream (j : JValue) : Upstream := fun _ _ => .resp true 200 "" (some j)

/-- An upstream oracle that answers every fetch with HTTP 404 and the
body text `not found`. -/
def up404 : Upstream := fun _ _ => .resp false 404 "not found" none

/-- Every successful dispatch result starts with the `jsonrpc` tag
followed by the echoed request `id`. -/
theorem handleMessageOkShape (fields : List (String × JValue)) (up : Upstream)
    (r : List (String × JValue)) (h : handleMessage (.jobj fields) up = .ok r) :
    ∃ rest, r = ("jsonrpc", JValue.jstr "2.0") :: ("id", jsGet fields "id") :: rest := by
  unfold handleMessage at h
  simp only [getFieldObjEq, exceptOkBind] at h
  split at h
  · exact ⟨_, (Except.ok.inj h).symm⟩
  · exact ⟨_, (Except.ok.inj h).symm⟩
  · rcases h2 : getField (jsGet fields "params") "name" with e | nm <;> rw [h2] at h
    · exact absurd h (by simp [exceptErrBind])
    · rcases h3 : getField (jsGet fields "params") "arguments" with e2 | argv <;>
        rw [exceptOkBind] at h <;> rw [h3] at h
      · exact absurd h (by simp [exceptErrBind])
      · rw [exceptOkBind] at h
        exact ⟨_, (Except.ok.inj h).symm⟩
  · exact ⟨_, (Except.ok.inj h).symm⟩
  · exact ⟨_, (Except.ok.inj h).symm⟩

/-- A non-2xx upstream response makes `callPolymarketAPI` throw with the
status and body text in the message. -/
theorem callAPINotOk (up : Upstream) (ep : String) (st : Nat) (txt : String)
    (bj : Option JValue) (hup : up ep [] = .resp false st txt bj) :
    callPolymarketAPI up ep none =
      .error ⟨"Error", "Polymarket API error: " ++ Nat.repr st ++ " - " ++ txt⟩ := by
  simp only [callPolymarketAPI]
  rw [hup]
  rfl

/-- The `Outcome Prices` segments over a payload whose price map is
present. -/
theorem outcomeSegsOnMapped (ps : List (String × JValue)) (extra : List JValue)
    (os : List String) :
    outcomeSegs (.jobj [("outcomes", .jarr extra), ("outcomeprices", .jobj ps)])
      (os.map .jstr) =
    .ok (os.map fun o => o ++ ": $" ++
      (if truthy (jsGet ps o) then toJsString (jsGet ps o) else "N/A")) := by
  induction os with
  | nil => rfl
  | cons o rest ih =>
    simp only [List.map, outcomeSegs, getFieldObjEq, exceptOkBind, ih]
    rfl

/-- `get-market-info` on a payload with outcomes and a price map renders
the report with one price segment per outcome, `"N/A"` for falsy ones. -/
theorem marketInfoWithMappedPrices (os : List String) (ps : List (String × JValue))
    (mid : String) :
    executeTool (.jstr "get-market-info") (.jobj [("market_id", .jstr mid)])
      (constUpstream (.jobj [("outcomes", .jarr (os.map .jstr)),
        ("outcomeprices", .jobj ps)])) =
    "Title: N/A\nCategory: N/A\nStatus: Open\nEnd Date: N/A\nVolume: $0\nLiquidity: $0\nOutcome Prices: " ++
      String.intercalate ", " (os.map fun o => o ++ ": $" ++
        (if truthy (jsGet ps o) then toJsString (jsGet ps o) else "N/A")) ++
      "\nDescription: " ++ "No description available" := by
  have h1 : executeToolInner (.jstr "get-market-info") (.jobj [("market_id", .jstr mid)])
      (constUpstream (.jobj [("outcomes", .jarr (os.map .jstr)),
        ("outcomeprices", .jobj ps)])) =
      outcomeSegs (.jobj [("outcomes", .jarr (os.map .jstr)), ("outcomeprices", .jobj ps)])
        (os.map .jstr) >>= (fun segs => .ok
          ("Title: N/A\nCategory: N/A\nStatus: Open\nEnd Date: N/A\nVolume: $0\nLiquidity: $0\nOutcome Prices: " ++
            String.intercalate ", " segs ++ "\nDescription: " ++ "No description available")) := rfl
  unfold executeTool
  rw [h1, outcomeSegsOnMapped]
  rfl

/-- `get-market-info` on a payload with a nonempty outcome list but no
`outcomeprices` throws reading the first outcome's price, so the catch
yields an `Error:` text. -/
theorem marketInfoMissingPriceMap (o : String) (rest : List JValue) (mid : String) :
    executeTool (.jstr "get-market-info") (.jobj [("market_id", .jstr mid)])
      (constUpstream (.jobj [("outcomes", .jarr (.jstr o :: rest))])) =
    "Error: Cannot read properties of undefined (reading '" ++ o ++ "')" := by
  unfold executeTool executeToolInner getMarketInfoTool
  simp only [getFieldObjEq, exceptOkBind, callPolymarketAPI, constUpstream, outcomeSegs]
  rfl

/-- The rational `3/5`, in normal form. -/
def rThreeFifths : ℚ := ⟨3, 5, by decide, by decide⟩

/-- The rational `2/5`, in normal form. -/
def rTwoFifths : ℚ := ⟨2, 5, by decide, by decide⟩

/-- `rThreeFifths` is `3 / 5`. -/
theorem rThreeFifthsEq : rThreeFifths = 3 / 5 := by
  rw [show rThreeFifths = Rat.mk' 3 5 (by decide) (by decide) from rfl, Rat.mk'_eq_divInt,
    Rat.divInt_eq_div]
  norm_num

/-- `rTwoFifths` is `2 / 5`. -/
theorem rTwoFifthsEq : rTwoFifths = 2 / 5 := by
  rw [show rTwoFifths = Rat.mk' 2 5 (by decide) (by decide) from rfl, Rat.mk'_eq_divInt,
    Rat.divInt_eq_div]
  norm_num

/-- `0.6` scaled to a percentage. -/
theorem rThreeFifthsMulHundred : rThreeFifths * 100 = (60 : ℚ) := by
  rw [rThreeFifthsEq]; norm_num

/-- `0.4` scaled to a percentage. -/
theorem rTwoFifthsMulHundred : rTwoFifths * 100 = (40 : ℚ) := by
  rw [rTwoFifthsEq]; norm_num

/-- The price looked up for an outcome, `0` when absent (the `|| 0`
default; a present price of `0` coincides with the default). -/
def qPrice (ps : List (String × ℚ)) (o : String) : ℚ :=
  match ps.find? (fun kv => kv.1 == o) with
  | some kv => kv.2
  | none => 0

/-- Object lookup in a price map whose values are all numbers. -/
theorem jsGetOnRatMapped (ps : List (String × ℚ)) (o : String) :
    jsGet (ps.map fun kv => (kv.1, JValue.jnum kv.2)) o =
      (match ps.find? (fun kv => kv.1 == o) with
       | some kv => .jnum kv.2
       | none => .jundefined) := by
  induction ps with
  | nil => rfl
  | cons kv rest ih =>
    simp only [jsGet] at ih
    simp only [List.map, jsGet, List.find?]
    cases h : (kv.1 == o)
    · exact ih
    · rfl

/-- The price loop of `get-market-prices` over an all-numeric price map
produces one formatted line per outcome, defaulting missing prices to
zero. -/
theorem priceLinesOnMapped (ps : List (String × ℚ)) (os : List String) :
    priceLines (.jobj (ps.map fun kv => (kv.1, JValue.jnum kv.2))) (os.map .jstr) =
      .ok ((os.map fun o => priceLine o (qPrice ps o)).foldr (· ++ ·) "") := by
  induction os with
  | nil => rfl
  | cons o rest ih =>
    simp only [List.map, priceLines, getFieldObjEq, exceptOkBind, toJsString,
      jsGetOnRatMapped, ih, List.foldr]
    cases h : ps.find? (fun kv => kv.1 == o) with
    | none => simp [qPrice, h, truthy]
    | some kv =>
      by_cases hq : kv.2 = 0 <;> simp [qPrice, h, truthy, hq]

/-- `get-market-prices` over an all-numeric price map renders the header
and one line per outcome. -/
theorem marketPricesOnMapped (os : List String) (ps : List (String × ℚ)) (mid : String) :
    executeTool (.jstr "get-market-prices") (.jobj [("market_id", .jstr mid)])
      (constUpstream (.jobj [("question", .jstr "Q"), ("outcomes", .jarr (os.map .jstr)),
        ("outcomeprices", .jobj (ps.map fun kv => (kv.1, JValue.jnum kv.2)))])) =
    "Market: Q\n\nCurrent Prices:\n" ++
      (os.map fun o => priceLine o (qPrice ps o)).foldr (· ++ ·) "" := by
  have h1 : executeToolInner (.jstr "get-market-prices") (.jobj [("market_id", .jstr mid)])
      (constUpstream (.jobj [("question", .jstr "Q"), ("outcomes", .jarr (os.map .jstr)),
        ("outcomeprices", .jobj (ps.map fun kv => (kv.1, JValue.jnum kv.2)))])) =
      priceLines (.jobj (ps.map fun kv => (kv.1, JValue.jnum kv.2))) (os.map .jstr) >>=
        (fun body => .ok ("Market: Q\n\nCurrent Prices:\n" ++ body)) := rfl
  unfold executeTool
  rw [h1, priceLinesOnMapped]
  rfl

/-- The upstream payload of the spec's `get-market-prices` example. -/
def pricesPayload : JValue := .jobj [("question", .jstr "Q"),
  ("outcomes", .jarr [.jstr "Yes", .jstr "No"]),
  ("outcomeprices", .jobj [("Yes", .jnum rThreeFifths), ("No", .jnum rTwoFifths)])]

/-- Once the keep-alive timer is off, no later event changes the frame
list or re-arms the timer. -/
theorem sseFramesStable (evs : List SseEvent) (s : SseState) (h : s.timerOn = false) :
    (evs.foldl sseStep s).frames = s.frames ∧ (evs.foldl sseStep s).timerOn = false := by
  induction evs generalizing s with
  | nil => exact ⟨rfl, h⟩
  | cons e rest ih =>
    cases e with
    | tick =>
      simp only [List.foldl, sseStep, h]
      exact ih s h
    | abort =>
      simp only [List.foldl, sseStep]
      exact ih { s with timerOn := false, closed := true } rfl

/-- C10: for every tool name outside the three known tools, `executeTool`
returns the text `Error: Unknown tool: <name>` as a successful result
(the internally thrown error is caught by its own catch), and a
`tools/call` naming such a tool yields a normal RPC `result` carrying
that text, with HTTP status 200 and no RPC-level `error`. -/
theorem c10_unknown_tool_text (n : String) (args : JValue) (up : Upstream)
    (idv argv : JValue) (h1 : n ≠ "get-market-info") (h2 : n ≠ "list-markets")
    (h3 : n ≠ "get-market-prices") :
    executeToolInner (.jstr n) args up = .error ⟨"Error", "Unknown tool: " ++ n⟩ ∧
    executeTool (.jstr n) args up = "Error: Unknown tool: " ++ n ∧
    messagesEndpoint (some (.jobj [("id", idv), ("method", .jstr "tools/call"),
      ("params", .jobj [("name", .jstr n), ("arguments", argv)])])) up =
    (200, [("jsonrpc", .jstr "2.0"), ("id", idv),
      ("result", .jobj [("content", .jarr [.jobj [("type", .jstr "text"),
        ("text", .jstr ("Error: Unknown tool: " ++ n))]])])]) := by
  have hinner : executeToolInner (.jstr n) args up =
      .error ⟨"Error", "Unknown tool: " ++ n⟩ := by
    unfold executeToolInner
    split <;> simp_all [toJsString]
  have htool : ∀ a : JValue, executeTool (.jstr n) a up = "Error: Unknown tool: " ++ n := by
    intro a
    have ha : executeToolInner (.jstr n) a up =
        .error ⟨"Error", "Unknown tool: " ++ n⟩ := by
      unfold executeToolInner
      split <;> simp_all [toJsString]
    unfold executeTool
    rw [ha]
    rfl
  refine ⟨hinner, htool args, ?_⟩
  have hred : messagesEndpoint (some (.jobj [("id", idv), ("method", .jstr "tools/call"),
      ("params", .jobj [("name", .jstr n), ("arguments", argv)])])) up =
    (200, [("jsonrpc", .jstr "2.0"), ("id", idv),
      ("result", .jobj [("content", .jarr [.jobj [("type", .jstr "text"),
        ("text", .jstr (executeTool (.jstr n)
          (if truthy argv then argv else .jobj []) up))]])])]) := rfl
  rw [hred, htool]

/-- C10 witness: a `tools/call` for the nonexistent tool `nope` yields a
successful result whose text is `Error: Unknown tool: nope`. -/
theorem c10_unknown_tool_text_witness :
    executeTool (.jstr "nope") (.jobj []) (constUpstream .jnull) =
      "Error: Unknown tool: " ++ "nope" :=
  (c10_unknown_tool_text "nope" (.jobj []) (constUpstream .jnull) .jnull .jundefined
    (by decide) (by decide) (by decide)).2.1

/-- C7: `list-markets` returns exactly
`No markets found with the specified criteria.` both when the upstream
JSON body is absent (`null`) and when it is an empty array, for every
argument object. -/
theorem c7_no_markets_text :
    (∀ fields : List (String × JValue),
      executeTool (.jstr "list-markets") (.jobj fields) (constUpstream .jnull) =
        "No markets found with the specified criteria.") ∧
    (∀ fields : List (String × JValue),
      executeTool (.jstr "list-markets") (.jobj fields) (constUpstream (.jarr [])) =
        "No markets found with the specified criteria.") := by
  constructor <;>
  · intro fields
    unfold executeTool executeToolInner listMarketsTool
    simp only [listMarketsParams, getFieldObjEq, exceptOkBind, callPolymarketAPI,
      constUpstream]
    rfl

/-- C4 (amended): on a payload with `outcomes` and a present
`outcomeprices` map, the `Outcome Prices` line joins each outcome with
its looked-up price, substituting `N/A` for a missing or falsy price;
when `outcomes` is a nonempty array but `outcomeprices` is absent, the
price read throws and the whole tool call returns an `Error:` text
instead of the report; when `outcomes` is absent the line is `N/A`. -/
theorem c4_outcome_prices_line_amended :
    (∀ (os : List String) (ps : List (String × JValue)) (mid : String),
      executeTool (.jstr "get-market-info") (.jobj [("market_id", .jstr mid)])
        (constUpstream (.jobj [("outcomes", .jarr (os.map .jstr)),
          ("outcomeprices", .jobj ps)])) =
      "Title: N/A\nCategory: N/A\nStatus: Open\nEnd Date: N/A\nVolume: $0\nLiquidity: $0\nOutcome Prices: " ++
        String.intercalate ", " (os.map fun o => o ++ ": $" ++
          (if truthy (jsGet ps o) then toJsString (jsGet ps o) else "N/A")) ++
        "\nDescription: " ++ "No description available") ∧
    (∀ (o : String) (rest : List JValue) (mid : String),
      executeTool (.jstr "get-market-info") (.jobj [("market_id", .jstr mid)])
        (constUpstream (.jobj [("outcomes", .jarr (.jstr o :: rest))])) =
      "Error: Cannot read properties of undefined (reading '" ++ o ++ "')") ∧
    (∀ mid : String,
      executeTool (.jstr "get-market-info") (.jobj [("market_id", .jstr mid)])
        (constUpstream (.jobj [("question", .jstr "Q")])) =
      "Title: Q\nCategory: N/A\nStatus: Open\nEnd Date: N/A\nVolume: $0\nLiquidity: $0\nOutcome Prices: N/A\nDescription: No description available") :=
  ⟨marketInfoWithMappedPrices, marketInfoMissingPriceMap, fun _ => rfl⟩

/-- C4 counterexample: with `outcomes` present (`["Yes"]`) but
`outcomeprices` absent, `get-market-info` does not render `N/A` price
segments as the claim states; it returns a caught `TypeError` text. -/
theorem c4_outcomeprices_absent_counterexample :
    executeTool (.jstr "get-market-info") (.jobj [("market_id", .jstr "btc")])
      (constUpstream (.jobj [("outcomes", .jarr [.jstr "Yes"])])) =
      "Error: Cannot read properties of undefined (reading 'Yes')" ∧
    containsStr (executeTool (.jstr "get-market-info") (.jobj [("market_id", .jstr "btc")])
      (constUpstream (.jobj [("outcomes", .jarr [.jstr "Yes"])]))) "N/A" = false := by
  refine ⟨rfl, by decide⟩

/-- C6: `get-market-prices` renders, for each outcome, the line
`<outcome>: $<price to 4 decimals> (<price*100 to 1 decimal>%)` with the
price defaulting to `0` when missing from the map; on the payload
`question "Q"`, outcomes `Yes`/`No`, prices `0.6`/`0.4` the text
contains the lines `Yes: $0.6000 (60.0%)` and `No: $0.4000 (40.0%)`. -/
theorem c6_price_formatting :
    (∀ (os : List String) (ps : List (String × ℚ)) (mid : String),
      executeTool (.jstr "get-market-prices") (.jobj [("market_id", .jstr mid)])
        (constUpstream (.jobj [("question", .jstr "Q"), ("outcomes", .jarr (os.map .jstr)),
          ("outcomeprices", .jobj (ps.map fun kv => (kv.1, JValue.jnum kv.2)))])) =
      "Market: Q\n\nCurrent Prices:\n" ++
        (os.map fun o => priceLine o (qPrice ps o)).foldr (· ++ ·) "") ∧
    executeTool (.jstr "get-market-prices") (.jobj [("market_id", .jstr "m")])
      (constUpstream pricesPayload) =
      "Market: Q\n\nCurrent Prices:\nYes: $0.6000 (60.0%)\nNo: $0.4000 (40.0%)\n" ∧
    containsStr "Market: Q\n\nCurrent Prices:\nYes: $0.6000 (60.0%)\nNo: $0.4000 (40.0%)\n"
      "Yes: $0.6000 (60.0%)\n" = true ∧
    containsStr "Market: Q\n\nCurrent Prices:\nYes: $0.6000 (60.0%)\nNo: $0.4000 (40.0%)\n"
      "No: $0.4000 (40.0%)\n" = true := by
  refine ⟨marketPricesOnMapped, ?_, by decide, by decide⟩
  have h : executeTool (.jstr "get-market-prices") (.jobj [("market_id", .jstr "m")])
      (constUpstream pricesPayload) =
      "Market: Q\n\nCurrent Prices:\n" ++
        ((["Yes", "No"].map fun o =>
          priceLine o (qPrice [("Yes", rThreeFifths), ("No", rTwoFifths)] o)).foldr
            (· ++ ·) "") :=
    marketPricesOnMapped ["Yes", "No"] [("Yes", rThreeFifths), ("No", rTwoFifths)] "m"
  rw [h]
  have hq1 : qPrice [("Yes", rThreeFifths), ("No", rTwoFifths)] "Yes" = rThreeFifths := by
    decide
  have hq2 : qPrice [("Yes", rThreeFifths), ("No", rTwoFifths)] "No" = rTwoFifths := by
    decide
  simp only [List.map, List.foldr, hq1, hq2, priceLine]
  rw [rThreeFifthsMulHundred, rTwoFifthsMulHundred]
  decide

/-- C5: a POST to a `/messages` path whose body has a string `method`
outside the four known methods is answered with HTTP 200, a response
object with no `result` field, and an `error` with code `-32601` whose
message contains the unrecognized method name. -/
theorem c5_unknown_method_error (fields : List (String × JValue)) (up : Upstream)
    (m path : String) (hp : endsWithS path "/messages" = true)
    (hs : endsWithS path "/sse" = false)
    (hm : jsGet fields "method" = .jstr m)
    (h1 : m ≠ "initialize") (h2 : m ≠ "tools/list") (h3 : m ≠ "tools/call")
    (h4 : m ≠ "prompts/list") :
    handler "POST" path (some (.jobj fields)) up =
      .messages (200, [("jsonrpc", .jstr "2.0"), ("id", jsGet fields "id"),
        ("error", .jobj [("code", .jnum (-32601)),
          ("message", .jstr ("Method not found: " ++ m))])]) ∧
    lookupField [("jsonrpc", JValue.jstr "2.0"), ("id", jsGet fields "id"),
      ("error", .jobj [("code", .jnum (-32601)),
        ("message", .jstr ("Method not found: " ++ m))])] "result" = none ∧
    (∃ pre post, "Method not found: " ++ m = pre ++ m ++ post) := by
  have hme : messagesEndpoint (some (.jobj fields)) up =
      (200, [("jsonrpc", .jstr "2.0"), ("id", jsGet fields "id"),
        ("error", .jobj [("code", .jnum (-32601)),
          ("message", .jstr ("Method not found: " ++ m))])]) := by
    unfold messagesEndpoint handleMessage
    simp only [getFieldObjEq, exceptOkBind]
    rw [hm]
    split <;> simp_all [toJsString]
  refine ⟨?_, rfl, ⟨"Method not found: ", "", (String.append_empty _).symm⟩⟩
  simp only [handler, hp, hs, hme]
  rfl

/-- C5 witness: method `foo/bar` on `/api/messages` yields the -32601
response with the method name in the message and no `result`. -/
theorem c5_unknown_method_error_witness :
    handler "POST" "/api/messages"
      (some (.jobj [("id", .jnum 1), ("method", .jstr "foo/bar")]))
      (constUpstream .jnull) =
    .messages (200, [("jsonrpc", .jstr "2.0"), ("id", .jnum 1),
      ("error", .jobj [("code", .jnum (-32601)),
        ("message", .jstr ("Method not found: " ++ "foo/bar"))])]) :=
  (c5_unknown_method_error [("id", .jnum 1), ("method", .jstr "foo/bar")]
    (constUpstream .jnull) "foo/bar" "/api/messages" (by decide) (by decide) rfl
    (by decide) (by decide) (by decide) (by decide)).1

/-- C9: a POST to `/messages` whose body has method `tools/call` but no
`params` field makes the dispatcher's read of `params.name` throw a
`TypeError`, answered by the HTTP-500 envelope with error code `-32603`
and no `result` field — not by a tool-level `Error:` text. -/
theorem c9_missing_params_envelope (fields : List (String × JValue)) (up : Upstream)
    (path : String) (hp : endsWithS path "/messages" = true)
    (hs : endsWithS path "/sse" = false)
    (hm : jsGet fields "method" = .jstr "tools/call")
    (hparams : jsGet fields "params" = .jundefined) :
    handler "POST" path (some (.jobj fields)) up =
      .messages (500, envelopeError
        ⟨"TypeError", "Cannot read properties of undefined (reading 'name')"⟩) ∧
    lookupField (envelopeError
      ⟨"TypeError", "Cannot read properties of undefined (reading 'name')"⟩) "error" =
      some (.jobj [("code", .jnum (-32603)), ("message", .jstr "Internal error"),
        ("data", .jstr "TypeError: Cannot read properties of undefined (reading 'name')")]) ∧
    lookupField (envelopeError
      ⟨"TypeError", "Cannot read properties of undefined (reading 'name')"⟩) "result" =
      none := by
  refine ⟨?_, rfl, rfl⟩
  simp only [handler, hp, hs]
  unfold messagesEndpoint handleMessage
  simp only [getFieldObjEq, exceptOkBind]
  rw [hm, hparams]
  rfl

/-- C9 witness: `tools/call` with no `params` on `/api/messages` is
answered with the 500 envelope. -/
theorem c9_missing_params_envelope_witness :
    handler "POST" "/api/messages"
      (some (.jobj [("id", .jnum 3), ("method", .jstr "tools/call")]))
      (constUpstream .jnull) =
    .messages (500, envelopeError
      ⟨"TypeError", "Cannot read properties of undefined (reading 'name')"⟩) :=
  (c9_missing_params_envelope [("id", .jnum 3), ("method", .jstr "tools/call")]
    (constUpstream .jnull) "/api/messages" (by decide) (by decide) rfl rfl).1

/-- C1 counterexample: the request `{id: 5, method: "tools/call"}` (no
`params`) carries `id` 5, dispatch throws, and the resulting HTTP-500
envelope-error body has no `id` field at all, so its `id` does not equal
the request's. -/
theorem c1_envelope_drops_id_counterexample :
    jsGet [("id", JValue.jnum 5), ("method", JValue.jstr "tools/call")] "id" =
      .jnum 5 ∧
    (messagesEndpoint (some (.jobj [("id", .jnum 5), ("method", .jstr "tools/call")]))
      (constUpstream .jnull)).1 = 500 ∧
    lookupField (messagesEndpoint
      (some (.jobj [("id", .jnum 5), ("method", .jstr "tools/call")]))
      (constUpstream .jnull)).2 "id" = none :=
  ⟨rfl, rfl, rfl⟩

/-- C1 (amended): every HTTP-200 response object echoes the request's
`id` (an absent request `id` is echoed as `undefined`, which
`JSON.stringify` drops), but the HTTP-500 envelope-error responses —
both for parse failures and for dispatch throws — carry no `id` field at
all. -/
theorem c1_response_id_echo_amended (fields : List (String × JValue)) (up : Upstream)
    (path : String) (hp : endsWithS path "/messages" = true)
    (hs : endsWithS path "/sse" = false) :
    handler "POST" path (some (.jobj fields)) up =
      .messages (messagesEndpoint (some (.jobj fields)) up) ∧
    ((messagesEndpoint (some (.jobj fields)) up).1 = 200 →
      lookupField (messagesEndpoint (some (.jobj fields)) up).2 "id" =
        some (jsGet fields "id")) ∧
    ((messagesEndpoint (some (.jobj fields)) up).1 = 500 →
      lookupField (messagesEndpoint (some (.jobj fields)) up).2 "id" = none) ∧
    lookupField (messagesEndpoint none up).2 "id" = none := by
  refine ⟨?_, ?_, ?_, rfl⟩
  · simp only [handler, hp, hs]
    rfl
  · rcases h : handleMessage (.jobj fields) up with e | r
    · intro h200
      simp only [messagesEndpoint, h] at h200
      exact absurd h200 (by decide)
    · intro _
      obtain ⟨rest, hr⟩ := handleMessageOkShape fields up r h
      simp only [messagesEndpoint, h, hr]
      rfl
  · rcases h : handleMessage (.jobj fields) up with e | r
    · intro _
      simp only [messagesEndpoint, h]
      rfl
    · intro h500
      simp only [messagesEndpoint, h] at h500
      exact absurd h500 (by decide)

/-- C1 witness: an `initialize` request with `id` 1 on `/api/messages`
gets a response whose `id` field is 1. -/
theorem c1_response_id_echo_witness :
    lookupField (messagesEndpoint
      (some (.jobj [("id", .jnum 1), ("method", .jstr "initialize")]))
      (constUpstream .jnull)).2 "id" = some (.jnum 1) :=
  (c1_response_id_echo_amended [("id", .jnum 1), ("method", .jstr "initialize")]
    (constUpstream .jnull) "/api/messages" (by decide) (by decide)).2.1 rfl

/-- C2: `executeTool` never lets a throw escape — every run of the
switch body either returns its text or is caught and rendered as
`Error: <message>`; in particular a non-2xx upstream response (whose
thrown message embeds the HTTP status and body text) makes
`get-market-info` return `Error: Polymarket API error: <status> -
<body>`, and the corresponding `tools/call` is answered with HTTP 200
and a successful RPC `result` whose `content[0].text` begins with
`Error:`, not an RPC-level error. -/
theorem c2_execute_tool_catches_all :
    (∀ (name args : JValue) (up : Upstream) (e : JsErr),
      executeToolInner name args up = .error e →
      executeTool name args up = "Error: " ++ e.message) ∧
    (∀ (name args : JValue) (up : Upstream) (s : String),
      executeToolInner name args up = .ok s → executeTool name args up = s) ∧
    (∀ (up : Upstream) (args : List (String × JValue)) (st : Nat) (txt : String)
      (bj : Option JValue),
      up ("/markets/" ++ toJsString (jsGet args "market_id")) [] = .resp false st txt bj →
      executeTool (.jstr "get-market-info") (.jobj args) up =
        "Error: " ++ ("Polymarket API error: " ++ Nat.repr st ++ " - " ++ txt)) ∧
    (∀ (up : Upstream) (idv : JValue) (mid : String) (st : Nat) (txt : String)
      (bj : Option JValue),
      up ("/markets/" ++ mid) [] = .resp false st txt bj →
      messagesEndpoint (some (.jobj [("id", idv), ("method", .jstr "tools/call"),
        ("params", .jobj [("name", .jstr "get-market-info"),
          ("arguments", .jobj [("market_id", .jstr mid)])])])) up =
      (200, [("jsonrpc", .jstr "2.0"), ("id", idv),
        ("result", .jobj [("content", .jarr [.jobj [("type", .jstr "text"),
          ("text", .jstr ("Error: " ++
            ("Polymarket API error: " ++ Nat.repr st ++ " - " ++ txt)))]])])])) := by
  have hp3 : ∀ (up : Upstream) (args : List (String × JValue)) (st : Nat) (txt : String)
      (bj : Option JValue),
      up ("/markets/" ++ toJsString (jsGet args "market_id")) [] = .resp false st txt bj →
      executeTool (.jstr "get-market-info") (.jobj args) up =
        "Error: " ++ ("Polymarket API error: " ++ Nat.repr st ++ " - " ++ txt) := by
    intro up args st txt bj hup
    have hcall := callAPINotOk up ("/markets/" ++ toJsString (jsGet args "market_id"))
      st txt bj hup
    unfold executeTool executeToolInner getMarketInfoTool
    simp only [getFieldObjEq, exceptOkBind]
    rw [hcall]
    rfl
  refine ⟨?_, ?_, hp3, ?_⟩
  · intro name args up e h
    unfold executeTool
    rw [h]
  · intro name args up s h
    unfold executeTool
    rw [h]
  · intro up idv mid st txt bj hup
    have htext : executeTool (.jstr "get-market-info")
        (.jobj [("market_id", .jstr mid)]) up =
        "Error: " ++ ("Polymarket API error: " ++ Nat.repr st ++ " - " ++ txt) :=
      hp3 up [("market_id", .jstr mid)] st txt bj hup
    have hred : messagesEndpoint (some (.jobj [("id", idv), ("method", .jstr "tools/call"),
        ("params", .jobj [("name", .jstr "get-market-info"),
          ("arguments", .jobj [("market_id", .jstr mid)])])])) up =
      (200, [("jsonrpc", .jstr "2.0"), ("id", idv),
        ("result", .jobj [("content", .jarr [.jobj [("type", .jstr "text"),
          ("text", .jstr (executeTool (.jstr "get-market-info")
            (.jobj [("market_id", .jstr mid)]) up))]])])]) := rfl
    rw [hred, htext]

/-- C2 witness: a 404 upstream makes `get-market-info` return the
caught `Error: Polymarket API error: 404 - not found` text. -/
theorem c2_execute_tool_catches_all_witness :
    executeTool (.jstr "get-market-info") (.jobj [("market_id", .jstr "abc")]) up404 =
      "Error: " ++ ("Polymarket API error: " ++ Nat.repr 404 ++ " - " ++ "not found") :=
  c2_execute_tool_catches_all.2.2.1 up404 [("market_id", .jstr "abc")] 404 "not found"
    none rfl

/-- C3: the query-parameter object built by `list-markets` contains
`closed` exactly when the argument is not `undefined` (with its value
forwarded), and `limit`/`offset` exactly when the argument is truthy, so
an explicit `0` for `limit` or `offset` is omitted. -/
theorem c3_list_markets_param_forwarding :
    (∀ fields : List (String × JValue), ∃ l,
      listMarketsParams (.jobj fields) = .ok l ∧
      (("closed" ∈ l.map Prod.fst) ↔ (jsGet fields "closed").isUndefined = false) ∧
      (("limit" ∈ l.map Prod.fst) ↔ truthy (jsGet fields "limit") = true) ∧
      (("offset" ∈ l.map Prod.fst) ↔ truthy (jsGet fields "offset") = true) ∧
      ((jsGet fields "closed").isUndefined = false → ("closed", jsGet fields "closed") ∈ l) ∧
      (truthy (jsGet fields "limit") = true → ("limit", jsGet fields "limit") ∈ l) ∧
      (truthy (jsGet fields "offset") = true → ("offset", jsGet fields "offset") ∈ l)) ∧
    listMarketsParams (.jobj [("closed", .jbool false), ("limit", .jnum 0),
      ("offset", .jnum 0)]) = .ok [("closed", .jbool false)] := by
  constructor
  · intro fields
    refine ⟨(if (jsGet fields "closed").isUndefined then []
        else [("closed", jsGet fields "closed")]) ++
      (if truthy (jsGet fields "limit") then [("limit", jsGet fields "limit")] else []) ++
      (if truthy (jsGet fields "offset") then [("offset", jsGet fields "offset")] else []),
      rfl, ?_, ?_, ?_, ?_, ?_, ?_⟩ <;>
    · cases hc : (jsGet fields "closed").isUndefined <;>
        cases hl : truthy (jsGet fields "limit") <;>
        cases ho : truthy (jsGet fields "offset") <;>
        simp [hc, hl, ho]
  · rfl

/-- C3 witness: with `closed = false`, `limit = 0`, `offset = 0` only
`closed` is forwarded. -/
theorem c3_list_markets_param_forwarding_witness :
    listMarketsParams (.jobj [("closed", .jbool false), ("limit", .jnum 0),
      ("offset", .jnum 0)]) = .ok [("closed", .jbool false)] :=
  c3_list_markets_param_forwarding.2

/-- C8: any non-OPTIONS request to a path ending in `/sse` opens the
stream whose first (and only immediate) frame is the SSE `data:` frame
of the `connection.established` notification; once the abort signal has
fired the keep-alive timer is off, and no sequence of later events ever
enqueues another frame. -/
theorem c8_sse_first_frame_and_abort :
    (∀ (method path : String) (b : Option JValue) (up : Upstream),
      method ≠ "OPTIONS" → endsWithS path "/sse" = true →
      handler method path b up = .sse sseOpenState) ∧
    sseOpenState.frames = [sseFrame connEstablished] ∧
    sseFrame connEstablished =
      "data: \x7b\"jsonrpc\":\"2.0\",\"method\":\"connection.established\"\x7d\n\n" ∧
    containsStr (sseFrame connEstablished) "connection.established" = true ∧
    (∀ (s : SseState) (evs : List SseEvent),
      (evs.foldl sseStep (sseStep s .abort)).frames = (sseStep s .abort).frames ∧
      (evs.foldl sseStep (sseStep s .abort)).timerOn = false) := by
  refine ⟨?_, rfl, by decide, by decide, ?_⟩
  · intro method path b up hme hsse
    simp only [handler, hsse, if_neg hme]
    rfl
  · intro s evs
    exact sseFramesStable evs (sseStep s .abort) rfl

/-- C8 witness: a GET on `/api/sse` opens the stream, and three ticks
after an abort add no frames. -/
theorem c8_sse_first_frame_and_abort_witness :
    handler "GET" "/api/sse" none (constUpstream .jnull) = .sse sseOpenState ∧
    ((List.replicate 3 SseEvent.tick).foldl sseStep
      (sseStep sseOpenState .abort)).frames = (sseStep sseOpenState .abort).frames :=
  ⟨c8_sse_first_frame_and_abort.1 "GET" "/api/sse" none (constUpstream .jnull)
    (by decide) (by decide),
   (c8_sse_first_frame_and_abort.2.2.2.2 sseOpenState (List.replicate 3 SseEvent.tick)).1⟩
